import Mathlib

/-!
Verification development for the Neura-AI v1000 "Hardcode" chat-assistant
backend (`src/main.py`, with the alternate engine in `src/bot_engine.py`).

The Python module keeps all mutable state in two JSON files (conversation
memory and a usage log), a per-client rate-limit table and a background
worker queue.  We embed that state shallowly:

* the JSON dictionaries become insertion-ordered association lists
  (Python `dict` preserves insertion order; assignment replaces in place,
  new keys are appended at the end);
* machine time (`time.time()`, `int(time.time())`) becomes an explicit
  parameter (`Int` for the float timestamps of the rate limiter, `Nat`
  for the integer message timestamps);
* the OpenAI call is a parameter `backend : List Msg → Except String
  BackendResp`; `Except.error e` models the call raising an exception
  with message `e` (caught by `generate`'s `except Exception` handler);
* the usage-log write (`append_usage`) is a parameter
  `usageWriter : List UsageRecord → UsageRecord → Except String (List
  UsageRecord)`; an `Except.error` models the unprotected
  `open(...,"w")`/`json.dump` raising inside `generate`'s `try` block.
-/

namespace NeuraAI

/-- Insertion-ordered association-list lookup, mirroring Python
`d.get(k)` on an insertion-ordered `dict`. -/
def alookup {α : Type} : List (String × α) → String → Option α
  | [], _ => none
  | (k, v) :: rest, key => if k = key then some v else alookup rest key

/-- Insertion-ordered association-list update, mirroring Python
`d[k] = v`: replace in place when the key exists, append otherwise. -/
def aset {α : Type} : List (String × α) → String → α → List (String × α)
  | [], key, v => [(key, v)]
  | (k, w) :: rest, key, v =>
      if k = key then (k, v) :: rest else (k, w) :: aset rest key v

/-- A stored chat message (`{"role": ..., "content": ..., "ts": int(time.time())}`,
`src/main.py` line 172). -/
structure Message where
  role : String
  content : String
  ts : Nat
deriving DecidableEq, Repr

/-- The `"conversations"` dictionary of `memory.json`: conversation key to
ordered message list. -/
abbrev Conversations := List (String × List Message)

/-- Python slice `xs[-n:]`: the last `n` elements for `n > 0`, but the whole
list for `n = 0` (`xs[-0:] = xs[0:]`). -/
def pySliceLast {α : Type} (n : Nat) (xs : List α) : List α :=
  if n = 0 then xs else xs.drop (xs.length - n)

/-- The last `n` elements of a list (`xs[-n:]` for positive `n`). -/
def lastN {α : Type} (n : Nat) (xs : List α) : List α :=
  xs.drop (xs.length - n)

/-- `BotEngine.get_conversation` (`src/main.py` lines 164-166):
`data.get("conversations", {}).get(convo_id, [])`. -/
def getConversation (st : Conversations) (k : String) : List Message :=
  (alookup st k).getD []

/-- `BotEngine.list_conversations` (`src/main.py` lines 160-162):
`list(data.get("conversations", {}).keys())`. -/
def listConversations (st : Conversations) : List String :=
  st.map Prod.fst

/-- `BotEngine.append_message` (`src/main.py` lines 168-176): fetch the
conversation (creating it empty), append the new message, and when the
length exceeds `max_history` trim with `conv[-max_history:]`. -/
def appendMessage (maxHistory : Nat) (st : Conversations)
    (k role content : String) (now : Nat) : Conversations :=
  let conv := (alookup st k).getD []
  let conv := conv ++ [Message.mk role content now]
  let conv := if conv.length > maxHistory then pySliceLast maxHistory conv else conv
  aset st k conv

/-- `BotEngine.clear_conversation` (`src/main.py` lines 178-182):
`convos[convo_id] = []` then save. -/
def clearConversation (st : Conversations) (k : String) : Conversations :=
  aset st k []

/-- A sequence of `append_message` calls on one conversation key, each item
giving (role, content, timestamp). -/
def appendRun (maxHistory : Nat) (k : String)
    (items : List (String × String × Nat)) (st : Conversations) : Conversations :=
  items.foldl (fun s it => appendMessage maxHistory s k it.1 it.2.1 it.2.2) st

/-- View an append-call descriptor as the stored message. -/
def mkMsg (it : String × String × Nat) : Message :=
  Message.mk it.1 it.2.1 it.2.2

/-- Base persona of `BotEngine._system_prompt` (`src/main.py` lines 241-242;
two adjacent Python string literals concatenated). -/
def basePersona : String :=
  "You are Neura-AI v1000, a premium AI assistant optimized for accuracy, conciseness, and business-grade responses. Follow user instructions carefully."

/-- Safety clause appended by `_system_prompt` when `safe_mode` is on
(`src/main.py` line 244). -/
def safetyClause : String :=
  " Do not produce disallowed content, and refuse unsafe requests."

/-- `BotEngine._system_prompt` (`src/main.py` lines 239-245). -/
def systemPrompt (safeMode : Bool) : String :=
  if safeMode then basePersona ++ safetyClause else basePersona

/-- Base persona of the alternate engine `BotEngine._system_prompt` in
`src/bot_engine.py` (lines 130-133). -/
def beastBasePersona : String :=
  "You are Neura-AI v1000 Hardcode, a premium AI assistant optimized for accuracy, conciseness, creativity, and business-grade responses."

/-- Safety clause of `src/bot_engine.py` line 133. -/
def beastSafetyClause : String :=
  " Do not produce disallowed content; refuse unsafe requests."

/-- System prompt built by `BotEngine.generate` in `src/bot_engine.py`
(lines 44-52): `_system_prompt()` (base plus safety clause under safe
mode) followed by the mode-specific suffix. -/
def beastSystemPrompt (mode : String) (safeMode : Bool) : String :=
  let p := if safeMode then beastBasePersona ++ beastSafetyClause else beastBasePersona
  if mode = "business" then p ++ " You are professional, concise, and formal."
  else if mode = "creative" then p ++ " Be playful, imaginative, and creative."
  else if mode = "debug" then p ++ " Provide verbose explanations and debug info."
  else p

/-- A message as sent to the generation backend
(`{"role": ..., "content": ...}`). -/
structure Msg where
  role : String
  content : String
deriving DecidableEq, Repr

/-- The backend reply: extracted `content` plus the opaque `usage`
attribute of the raw response (`none` models a missing/falsy
`resp.usage`). -/
structure BackendResp where
  content : String
  usage : Option String
deriving DecidableEq, Repr

/-- A record appended to the `"calls"` list of `usage.json`.

`gen` is the usage entry written by `BotEngine.generate` (`src/main.py`
lines 225-232): time string, conversation key (or `"none"`), model,
`prompt_len = sum(len(m.get("content","")) for m in messages)`, and the
opaque usage payload (`usage_info if usage_info else empty`).
`askEvent` is the `ask_called` event scheduled by the `/ask` route
(`src/main.py` line 482). -/
inductive UsageRecord where
  | askEvent (time : String) (convo : String)
  | gen (time : String) (convo : String) (model : String)
        (promptLen : Nat) (usage : String)
deriving DecidableEq, Repr

/-- The two persisted JSON stores: `memory.json`'s conversations and
`usage.json`'s call list. -/
structure GenState where
  conversations : Conversations
  usage : List UsageRecord
deriving DecidableEq, Repr

/-- Message-sequence assembly inside `BotEngine.generate` (`src/main.py`
lines 198-203): system prompt, then the stored history of the
conversation (when a key is given), then the new user message. -/
def buildMessages (safeMode : Bool) (st : Conversations)
    (convoId : Option String) (userText : String) : List Msg :=
  Msg.mk "system" (systemPrompt safeMode)
    :: ((match convoId with
          | some cid => (getConversation st cid).map (fun m => Msg.mk m.role m.content)
          | none => [])
        ++ [Msg.mk "user" userText])

/-- Result dictionary of `BotEngine.generate`: at most one of `answer`
and `error` is set. -/
structure GenOutcome where
  answer : Option String
  error : Option String
  usage : Option String
deriving DecidableEq, Repr

/-- The well-behaved usage writer: `append_usage` succeeding
(`src/main.py` lines 120-129, `u["calls"].append(entry)` then rewrite). -/
def appendUsageOk (log : List UsageRecord) (entry : UsageRecord) :
    Except String (List UsageRecord) :=
  Except.ok (log ++ [entry])

/-- `BotEngine.generate` (`src/main.py` lines 184-237).

Parameters model the ambient environment: `sdkInstalled` is `openai is
not None`, `apiKeySet` covers the api-key check, `backend` is the
`openai.ChatCompletion.create` call together with content extraction
(`Except.error e` = the call raised an exception with message `e`),
`usageWriter` is `append_usage` (`Except.error` = its file write raised),
`nowU`/`nowA` the `int(time.time())` stamps of the two appends and
`timeStr` the `datetime.utcnow().isoformat()+"Z"` string.

Faithful control flow: the backend call, the two `append_message` calls
and `append_usage` all sit inside one `try`; an exception from any of
them is caught by the same handler, which returns an error dictionary.
The appends run (and persist) before `append_usage`, so a usage-write
failure still leaves the two new messages stored. -/
def generate (sdkInstalled apiKeySet safeMode : Bool) (model : String)
    (maxHistory : Nat)
    (backend : List Msg → Except String BackendResp)
    (usageWriter : List UsageRecord → UsageRecord → Except String (List UsageRecord))
    (st : GenState) (userText : String) (convoId : Option String)
    (nowU nowA : Nat) (timeStr : String) : GenOutcome × GenState :=
  if !sdkInstalled then
    (GenOutcome.mk none (some "OpenAI SDK not installed.") none, st)
  else if !apiKeySet then
    (GenOutcome.mk none (some "OpenAI API key not set (OPENAI_API_KEY env).") none, st)
  else
    let messages := buildMessages safeMode st.conversations convoId userText
    match backend messages with
    | Except.error e => (GenOutcome.mk none (some e) none, st)
    | Except.ok resp =>
        let convs :=
          match convoId with
          | some cid =>
              appendMessage maxHistory
                (appendMessage maxHistory st.conversations cid "user" userText nowU)
                cid "assistant" resp.content nowA
          | none => st.conversations
        let promptLen := (messages.map (fun m => m.content.length)).sum
        let entry := UsageRecord.gen timeStr (convoId.getD "none") model
                        promptLen (resp.usage.getD "")
        match usageWriter st.usage entry with
        | Except.ok newLog =>
            (GenOutcome.mk (some resp.content) none resp.usage,
             GenState.mk convs newLog)
        | Except.error e =>
            (GenOutcome.mk none (some e) none, GenState.mk convs st.usage)

/-- Per-client rate window table (`_rate_store`): client key to list of
recorded request times. -/
abbrev RateStore := List (String × List Int)

/-- `is_rate_limited` (`src/main.py` lines 258-269): prune entries older
than `now - RATE_WINDOW`, deny (returning `true`) with no new stamp when
the remaining count reaches `RATE_MAX`, otherwise record `now` and
admit.  Returns the flag and the updated store (the in-place `arr[:] =`
mutation persists the pruned list even on denial). -/
def isRateLimited (rateMax : Nat) (window : Int) (store : RateStore)
    (ip : String) (now : Int) : Bool × RateStore :=
  let arr := (alookup store ip).getD []
  let windowStart := now - window
  let arr := arr.filter (fun t => decide (windowStart ≤ t))
  if rateMax ≤ arr.length then (true, aset store ip arr)
  else (false, aset store ip (arr ++ [now]))

/-- A task sitting in `WORKER_QUEUE`.  The `/ask` route enqueues one
`append_usage` call logging an `ask_called` event (`src/main.py` line
482); we record it as data since the worker has not run it yet. -/
inductive QueuedTask where
  | logAskEvent (time : String) (convo : String)
deriving DecidableEq, Repr

/-- The engine object `BOT`.  `setPersona` embeds the `BOT.set_persona`
attribute assigned by the `/ask` route's mode branch (`src/main.py`
lines 473-479); no other code ever reads it. -/
structure Engine where
  model : String
  maxHistory : Nat
  setPersona : Option String
deriving DecidableEq, Repr

/-- Whole mutable state visible to the `/ask` route. -/
structure AskState where
  engine : Engine
  gen : GenState
  rate : RateStore
  tasks : List QueuedTask
deriving DecidableEq, Repr

/-- Responses of the `/ask` route, by branch: HTTP 429
`rate_limited`, HTTP 400 `no command provided`, HTTP 500 with the
error from `generate`, or HTTP 200 with answer and usage. -/
inductive AskResponse where
  | rateLimited
  | invalidRequest
  | backendError (msg : String)
  | ok (answer : String) (usage : Option String)
deriving DecidableEq, Repr

/-- Resolution `body.get("convo_id") or "default_convo"` — Python `or`
falls through on `None` and on the empty string. -/
def resolveOr (dflt : String) (v : Option String) : String :=
  match v with
  | none => dflt
  | some s => if s = "" then dflt else s

/-- The `/ask` route (`src/main.py` lines 459-488), the Session
Orchestrator's `handle`:

1. rate-limit check (429 on denial);
2. resolve `command`, `convo_id`, `mode`;
3. empty command → 400, before any scheduling or generation;
4. mode branch: assigns a persona string to the attribute
   `BOT.set_persona` for `business`/`creative` (`debug` is `pass`) —
   nothing reads this attribute, and `mode` is not passed to
   `BOT.generate`;
5. schedule the `ask_called` usage event on the worker queue;
6. call `BOT.generate(command, convo_id=convo_id)`; 500 with the error
   message on failure, else 200 with the answer. -/
def ask (sdkInstalled apiKeySet safeMode : Bool) (rateMax : Nat) (window : Int)
    (backend : List Msg → Except String BackendResp)
    (usageWriter : List UsageRecord → UsageRecord → Except String (List UsageRecord))
    (st : AskState) (ip : String) (command : String)
    (convoIdParam modeParam : Option String)
    (now : Int) (nowU nowA : Nat) (timeStr : String) : AskResponse × AskState :=
  let rl := isRateLimited rateMax window st.rate ip now
  if rl.1 then
    (AskResponse.rateLimited, AskState.mk st.engine st.gen rl.2 st.tasks)
  else
    let convoId := resolveOr "default_convo" convoIdParam
    let mode := resolveOr "default" modeParam
    if command = "" then
      (AskResponse.invalidRequest, AskState.mk st.engine st.gen rl.2 st.tasks)
    else
      let eng :=
        if mode = "business" then
          Engine.mk st.engine.model st.engine.maxHistory
            (some "You are a professional business assistant; concise, formal.")
        else if mode = "creative" then
          Engine.mk st.engine.model st.engine.maxHistory
            (some "You are creative, playful, imaginative.")
        else st.engine
      let tasks := st.tasks ++ [QueuedTask.logAskEvent timeStr convoId]
      let r := generate sdkInstalled apiKeySet safeMode eng.model eng.maxHistory
                  backend usageWriter st.gen command (some convoId) nowU nowA timeStr
      match r.1.error with
      | some e => (AskResponse.backendError e, AskState.mk eng r.2 rl.2 tasks)
      | none =>
          (AskResponse.ok (r.1.answer.getD "") r.1.usage,
           AskState.mk eng r.2 rl.2 tasks)

/-- A task handed to the background worker.  `run` is the task body's
effect on ambient state together with a flag saying whether the body
raised after its effect (the worker's `try`/`except` catches the raise,
`src/main.py` lines 292-298); `delay` is the `time.sleep` the
`schedule_task` wrapper performs before the body runs. -/
structure WTask (σ : Type) where
  id : Nat
  delay : Nat
  run : σ → σ × Bool
deriving Inhabited

/-- The single background `worker_thread` (`src/main.py` lines 286-298)
draining the FIFO `WORKER_QUEUE`: dequeue in enqueue order, execute the
task once, catch and log any exception, continue with the next task.
Returns the final state and the ids in execution order. -/
def workerRun {σ : Type} : List (WTask σ) → σ → σ × List Nat
  | [], s => (s, [])
  | t :: rest, s =>
      let step := t.run s
      let r := workerRun rest step.1
      (r.1, t.id :: r.2)

/-- A backend stub that reports the system prompt it was handed by
failing with it as the error message; used to observe the exact payload
the orchestrator sends. -/
def probeBackend : List Msg → Except String BackendResp :=
  fun msgs => Except.error ((msgs.headD (Msg.mk "" "")).content)

/-- A backend stub that always succeeds with the reply `"pong"`. -/
def okBackendPong : List Msg → Except String BackendResp :=
  fun _ => Except.ok (BackendResp.mk "pong" none)

/-- A usage writer whose file write always raises, modelling a failing
`append_usage` (`src/main.py` line 128 is outside any inner `try`). -/
def failUsageWriter : List UsageRecord → UsageRecord → Except String (List UsageRecord) :=
  fun _ _ => Except.error "usage write failed"

/-- A fresh server state with the default engine configuration. -/
def askDemoState : AskState :=
  AskState.mk (Engine.mk "gpt-5-mini" 30 none) (GenState.mk [] []) [] []

/-- A server state whose conversation `"c1"` already holds a full
`max_history = 30` messages. -/
def fullConvoState : AskState :=
  AskState.mk (Engine.mk "gpt-5-mini" 30 none)
    (GenState.mk [("c1", List.replicate 30 (Message.mk "user" "x" 0))] []) [] []

/-- Admission-controller demo trace: successive calls for client `"A"`
with `maxRequests = 3`, `windowSeconds = 10` at times 0, 1, 2, 3. -/
def rateDemo1 : RateStore := (isRateLimited 3 10 [] "A" 0).2

def rateDemo2 : RateStore := (isRateLimited 3 10 rateDemo1 "A" 1).2

def rateDemo3 : RateStore := (isRateLimited 3 10 rateDemo2 "A" 2).2

def rateDemo4 : RateStore := (isRateLimited 3 10 rateDemo3 "A" 3).2

/-! ### Association-list lemmas -/

theorem alookup_aset_self {α : Type} (m : List (String × α)) (k : String) (v : α) :
    alookup (aset m k v) k = some v := by
  induction m with
  | nil => simp [aset, alookup]
  | cons hd tl ih =>
      obtain ⟨k0, w⟩ := hd
      by_cases h : k0 = k
      · simp [aset, alookup, h]
      · simp [aset, alookup, h, ih]

theorem alookup_aset_ne {α : Type} (m : List (String × α)) (k k' : String) (v : α)
    (h : k' ≠ k) : alookup (aset m k v) k' = alookup m k' := by
  have hk : k ≠ k' := fun e => h e.symm
  induction m with
  | nil => simp [aset, alookup, hk]
  | cons hd tl ih =>
      obtain ⟨k0, w⟩ := hd
      by_cases h0 : k0 = k
      · subst h0
        simp [aset, alookup, hk]
      · simp [aset, alookup, h0, ih]

theorem mem_keys_aset {α : Type} (m : List (String × α)) (k : String) (v : α) :
    k ∈ (aset m k v).map Prod.fst := by
  induction m with
  | nil => simp [aset]
  | cons hd tl ih =>
      obtain ⟨k0, w⟩ := hd
      by_cases h : k0 = k
      · simp [aset, h]
      · simp [aset, h]
        right
        simpa using ih

theorem aset_aset_self {α : Type} (m : List (String × α)) (k : String) (v w : α) :
    aset (aset m k v) k w = aset m k w := by
  induction m with
  | nil => simp [aset]
  | cons hd tl ih =>
      obtain ⟨k0, u⟩ := hd
      by_cases h : k0 = k
      · simp [aset, h]
      · simp [aset, h, ih]

theorem alookup_none_of_not_mem_keys {α : Type} (m : List (String × α)) (k : String)
    (h : alookup m k = none) : k ∉ m.map Prod.fst := by
  induction m with
  | nil => simp
  | cons hd tl ih =>
      obtain ⟨k0, w⟩ := hd
      by_cases h0 : k0 = k
      · simp [alookup, h0] at h
      · rw [show alookup ((k0, w) :: tl) k = alookup tl k from by simp [alookup, h0]] at h
        simp only [List.map_cons, List.mem_cons]
        push_neg
        exact ⟨fun e => h0 e.symm, ih h⟩

/-! ### lastN / slicing lemmas -/

theorem lastN_nil {α : Type} (n : Nat) : lastN n ([] : List α) = [] := by
  simp [lastN]

theorem lastN_of_length_le {α : Type} {n : Nat} {xs : List α}
    (h : xs.length ≤ n) : lastN n xs = xs := by
  unfold lastN
  have : xs.length - n = 0 := by omega
  simp [this]

theorem length_lastN_le {α : Type} (n : Nat) (xs : List α) :
    (lastN n xs).length ≤ n := by
  unfold lastN
  rw [List.length_drop]
  omega

theorem pySliceLast_eq_lastN {α : Type} {n : Nat} (hn : n ≠ 0) (xs : List α) :
    pySliceLast n xs = lastN n xs := by
  simp [pySliceLast, lastN, hn]

theorem lastN_append_lastN {α : Type} (n : Nat) (xs ys : List α) :
    lastN n (lastN n xs ++ ys) = lastN n (xs ++ ys) := by
  unfold lastN
  have hd : xs.length - n ≤ xs.length := by omega
  rw [← List.drop_append_of_le_length hd]
  rw [List.drop_drop]
  congr 1
  simp only [List.length_drop, List.length_append]
  omega

/-! ### Conversation repository lemmas -/

theorem getConversation_appendMessage_self {m : Nat} (hm : 1 ≤ m)
    (st : Conversations) (k r c : String) (t : Nat) :
    getConversation (appendMessage m st k r c t) k
      = lastN m (getConversation st k ++ [Message.mk r c t]) := by
  unfold appendMessage getConversation
  rw [alookup_aset_self]
  by_cases h : ((alookup st k).getD [] ++ [Message.mk r c t]).length > m
  · simp only [h, if_true, Option.getD_some]
    exact pySliceLast_eq_lastN (by omega) _
  · simp only [h, if_false, Option.getD_some]
    exact (lastN_of_length_le (by omega)).symm

theorem appendRun_getConversation {m : Nat} (hm : 1 ≤ m) (k : String) :
    ∀ (items : List (String × String × Nat)) (st : Conversations)
      (conv : List Message),
      getConversation st k = lastN m conv →
      getConversation (appendRun m k items st) k
        = lastN m (conv ++ items.map mkMsg) := by
  intro items
  induction items with
  | nil =>
      intro st conv h
      simpa [appendRun] using h
  | cons it rest ih =>
      intro st conv h
      have hstep : getConversation (appendMessage m st k it.1 it.2.1 it.2.2) k
          = lastN m (conv ++ [mkMsg it]) := by
        rw [getConversation_appendMessage_self hm, h]
        exact lastN_append_lastN m conv [mkMsg it]
      have := ih (appendMessage m st k it.1 it.2.1 it.2.2) (conv ++ [mkMsg it]) hstep
      calc getConversation (appendRun m k (it :: rest) st) k
          = getConversation (appendRun m k rest (appendMessage m st k it.1 it.2.1 it.2.2)) k := by
            simp [appendRun]
        _ = lastN m ((conv ++ [mkMsg it]) ++ rest.map mkMsg) := this
        _ = lastN m (conv ++ (it :: rest).map mkMsg) := by
            simp

/-- Two sequential appends (user, then assistant) on one key keep the
most recent `m` messages of the extended history. -/
theorem getConversation_two_appends {m : Nat} (hm : 1 ≤ m) (st : Conversations)
    (k contentU contentA : String) (tu ta : Nat) :
    getConversation
        (appendMessage m (appendMessage m st k "user" contentU tu)
          k "assistant" contentA ta) k
      = lastN m (getConversation st k
          ++ [Message.mk "user" contentU tu, Message.mk "assistant" contentA ta]) := by
  rw [getConversation_appendMessage_self hm, getConversation_appendMessage_self hm,
      lastN_append_lastN]
  simp

/-! ### Claim theorems -/

/-- C1: For every sequence of append operations on a single conversation
key (with the configured `max_history = 30`), the stored history length
never exceeds `max_history`, and the retained messages are exactly the
most recently appended `max_history` entries, in appended order. -/
theorem c1_history_bounded (st : Conversations) (k : String)
    (items : List (String × String × Nat))
    (h : getConversation st k = []) :
    getConversation (appendRun 30 k items st) k = lastN 30 (items.map mkMsg)
    ∧ (getConversation (appendRun 30 k items st) k).length ≤ 30 := by
  have h0 : getConversation st k = lastN 30 ([] : List Message) := by
    rw [lastN_nil]; exact h
  have hmain := appendRun_getConversation (m := 30) (by omega) k items st [] h0
  have h1 : getConversation (appendRun 30 k items st) k = lastN 30 (items.map mkMsg) := by
    simpa using hmain
  refine ⟨h1, ?_⟩
  rw [h1]
  exact length_lastN_le 30 _

/-- Witness for C1 at a concrete input. -/
theorem c1_history_bounded_witness :
    getConversation ([] : Conversations) "c1" = []
    ∧ (getConversation (appendRun 30 "c1" [("user", "hi", 1), ("assistant", "hello", 2)] []) "c1"
        = lastN 30 ([("user", "hi", 1), ("assistant", "hello", 2)].map mkMsg)
      ∧ (getConversation (appendRun 30 "c1" [("user", "hi", 1), ("assistant", "hello", 2)] []) "c1").length ≤ 30) :=
  ⟨rfl, c1_history_bounded [] "c1" [("user", "hi", 1), ("assistant", "hello", 2)] rfl⟩

/-- C9: For every conversation key, `clear(key)` followed by `get(key)`
returns an empty sequence, the key remains present in `listKeys()` after
the clear, and `clear` is idempotent: a second `clear(key)` leaves the
state identical to after the first. -/
theorem c9_clear_semantics (st : Conversations) (k : String) :
    getConversation (clearConversation st k) k = []
    ∧ k ∈ listConversations (clearConversation st k)
    ∧ clearConversation (clearConversation st k) k = clearConversation st k := by
  refine ⟨?_, ?_, ?_⟩
  · simp [getConversation, clearConversation, alookup_aset_self]
  · simpa [listConversations, clearConversation] using mem_keys_aset st k []
  · exact aset_aset_self st k [] []

/-- C10: Calling `clear` on a conversation key that was never seen before
creates that key rather than failing or being a no-op: afterwards
`get(key)` returns the empty sequence and the key appears in the
`listKeys()` snapshot. -/
theorem c10_clear_creates_key (st : Conversations) (k : String)
    (h : alookup st k = none) :
    getConversation (clearConversation st k) k = []
    ∧ k ∉ listConversations st
    ∧ k ∈ listConversations (clearConversation st k) := by
  refine ⟨?_, ?_, ?_⟩
  · simp [getConversation, clearConversation, alookup_aset_self]
  · simpa [listConversations] using alookup_none_of_not_mem_keys st k h
  · simpa [listConversations, clearConversation] using mem_keys_aset st k []

/-- Witness for C10 at a concrete input. -/
theorem c10_clear_creates_key_witness :
    alookup ([("other", [Message.mk "user" "x" 0])] : Conversations) "c1" = none
    ∧ (getConversation (clearConversation [("other", [Message.mk "user" "x" 0])] "c1") "c1" = []
      ∧ "c1" ∉ listConversations [("other", [Message.mk "user" "x" 0])]
      ∧ "c1" ∈ listConversations (clearConversation [("other", [Message.mk "user" "x" 0])] "c1")) :=
  ⟨by decide, c10_clear_creates_key [("other", [Message.mk "user" "x" 0])] "c1" (by decide)⟩

/-- C6: Each admission check computes `windowStart = now - windowSeconds`,
prunes that client's recorded timestamps older than `windowStart`,
returns denied with no new timestamp recorded when the remaining count is
at least `maxRequests`, and otherwise records `now` and returns allowed;
a check for one client key never reads or modifies another client's
window, so with `maxRequests = 3` three allowed calls are followed by an
immediate denial and an allowance again once the window has passed.
(`isRateLimited` returning `true` is a denial; `allow = not limited`.) -/
theorem c6_admission_control :
    (∀ (rateMax : Nat) (window : Int) (store : RateStore) (ip : String) (now : Int),
      (isRateLimited rateMax window store ip now).1
        = decide (rateMax ≤ (((alookup store ip).getD []).filter
            (fun t => decide (now - window ≤ t))).length)
      ∧ alookup (isRateLimited rateMax window store ip now).2 ip
          = some (if rateMax ≤ (((alookup store ip).getD []).filter
                      (fun t => decide (now - window ≤ t))).length
                  then ((alookup store ip).getD []).filter (fun t => decide (now - window ≤ t))
                  else ((alookup store ip).getD []).filter (fun t => decide (now - window ≤ t)) ++ [now])
      ∧ (∀ ip2, ip2 ≠ ip →
            alookup (isRateLimited rateMax window store ip now).2 ip2 = alookup store ip2)
      ∧ (∀ store2 : RateStore, alookup store2 ip = alookup store ip →
            (isRateLimited rateMax window store2 ip now).1
              = (isRateLimited rateMax window store ip now).1))
    ∧ ((isRateLimited 3 10 [] "A" 0).1 = false
      ∧ (isRateLimited 3 10 rateDemo1 "A" 1).1 = false
      ∧ (isRateLimited 3 10 rateDemo2 "A" 2).1 = false
      ∧ (isRateLimited 3 10 rateDemo3 "A" 3).1 = true
      ∧ alookup rateDemo4 "A" = some [0, 1, 2]
      ∧ (isRateLimited 3 10 rateDemo4 "A" 13).1 = false
      ∧ (isRateLimited 3 10 rateDemo4 "B" 3).1 = false) := by
  constructor
  · intro rateMax window store ip now
    refine ⟨?_, ?_, ?_, ?_⟩
    · simp only [isRateLimited]
      by_cases hc : rateMax ≤ (((alookup store ip).getD []).filter
          (fun t => decide (now - window ≤ t))).length
      · rw [if_pos hc]
        exact (decide_eq_true hc).symm
      · rw [if_neg hc]
        exact (decide_eq_false hc).symm
    · simp only [isRateLimited]
      by_cases hc : rateMax ≤ (((alookup store ip).getD []).filter
          (fun t => decide (now - window ≤ t))).length
      · rw [if_pos hc, if_pos hc]
        exact alookup_aset_self store ip _
      · rw [if_neg hc, if_neg hc]
        exact alookup_aset_self store ip _
    · intro ip2 hne
      simp only [isRateLimited]
      by_cases hc : rateMax ≤ (((alookup store ip).getD []).filter
          (fun t => decide (now - window ≤ t))).length
      · rw [if_pos hc]
        exact alookup_aset_ne store ip ip2 _ hne
      · rw [if_neg hc]
        exact alookup_aset_ne store ip ip2 _ hne
    · intro store2 hsame
      simp only [isRateLimited, hsame]
      by_cases hc : rateMax ≤ (((alookup store ip).getD []).filter
          (fun t => decide (now - window ≤ t))).length
      · rw [if_pos hc, if_pos hc]
      · rw [if_neg hc, if_neg hc]
  · refine ⟨?_, ?_, ?_, ?_, ?_, ?_, ?_⟩ <;> decide

/-- Witness for C6, discharging the per-key-independence hypotheses at
concrete inputs. -/
theorem c6_admission_control_witness :
    ("B" ≠ "A"
      ∧ alookup (isRateLimited 3 10 [("A", [0])] "A" 1).2 "B" = alookup ([("A", [0])] : RateStore) "B")
    ∧ (alookup ([("A", [0]), ("B", [5])] : RateStore) "A" = alookup ([("A", [0])] : RateStore) "A"
      ∧ (isRateLimited 3 10 [("A", [0]), ("B", [5])] "A" 1).1
          = (isRateLimited 3 10 [("A", [0])] "A" 1).1) :=
  ⟨⟨by decide, (c6_admission_control.1 3 10 [("A", [0])] "A" 1).2.2.1 "B" (by decide)⟩,
   ⟨by decide, (c6_admission_control.1 3 10 [("A", [0])] "A" 1).2.2.2 [("A", [0]), ("B", [5])] (by decide)⟩⟩

/-- C8: For every sequence of enqueued tasks, the single background
worker executes them strictly in FIFO enqueue order (each exactly once —
tasks applied starting from the enqueue-time state, in order), and a
task that throws is caught by the worker (the `run` failure flag), so it
is not retried and does not prevent any subsequent queued task from
executing: the execution trace is the full id sequence no matter which
tasks fail and what their delays are. -/
theorem c8_worker_fifo {σ : Type} (tasks : List (WTask σ)) (s : σ) :
    (workerRun tasks s).2 = tasks.map (fun t => t.id)
    ∧ (workerRun tasks s).1 = tasks.foldl (fun st t => (t.run st).1) s := by
  induction tasks generalizing s with
  | nil => exact ⟨rfl, rfl⟩
  | cons t rest ih =>
      refine ⟨?_, ?_⟩
      · simp [workerRun, (ih ((t.run s).1)).1]
      · simp [workerRun, (ih ((t.run s).1)).2]

/-- C7: A `handle` call (admitted by the rate limiter) with empty
`userText` returns `InvalidRequest` and leaves every conversation
history and the usage log unchanged: no message is appended, no
`UsageEntry` is recorded, and no background task is enqueued. -/
theorem c7_empty_text_invalid (sdkInstalled apiKeySet safeMode : Bool)
    (rateMax : Nat) (window : Int)
    (backend : List Msg → Except String BackendResp)
    (usageWriter : List UsageRecord → UsageRecord → Except String (List UsageRecord))
    (st : AskState) (ip : String) (convoIdParam modeParam : Option String)
    (now : Int) (nowU nowA : Nat) (timeStr : String)
    (hadm : (isRateLimited rateMax window st.rate ip now).1 = false) :
    (ask sdkInstalled apiKeySet safeMode rateMax window backend usageWriter
        st ip "" convoIdParam modeParam now nowU nowA timeStr).1
      = AskResponse.invalidRequest
    ∧ (ask sdkInstalled apiKeySet safeMode rateMax window backend usageWriter
        st ip "" convoIdParam modeParam now nowU nowA timeStr).2.gen = st.gen
    ∧ (ask sdkInstalled apiKeySet safeMode rateMax window backend usageWriter
        st ip "" convoIdParam modeParam now nowU nowA timeStr).2.tasks = st.tasks := by
  refine ⟨?_, ?_, ?_⟩ <;> simp [ask, hadm]

/-- Witness for C7 at a concrete input. -/
theorem c7_empty_text_invalid_witness :
    (isRateLimited 20 10 askDemoState.rate "1.2.3.4" 0).1 = false
    ∧ ((ask true true true 20 10 okBackendPong appendUsageOk
          askDemoState "1.2.3.4" "" none (some "business") 0 5 6 "t").1
        = AskResponse.invalidRequest
      ∧ (ask true true true 20 10 okBackendPong appendUsageOk
          askDemoState "1.2.3.4" "" none (some "business") 0 5 6 "t").2.gen = askDemoState.gen
      ∧ (ask true true true 20 10 okBackendPong appendUsageOk
          askDemoState "1.2.3.4" "" none (some "business") 0 5 6 "t").2.tasks = askDemoState.tasks) :=
  ⟨by decide,
   c7_empty_text_invalid true true true 20 10 okBackendPong appendUsageOk
     askDemoState "1.2.3.4" none (some "business") 0 5 6 "t" (by decide)⟩

/-- C2: For every conversation key and every prior state, if the
generation-backend call inside `generate` fails (the SDK being present
and the key set, so that the call is reached), `handle` returns a
`BackendError` carrying the backend's message and the conversation
store, including the given key's history, is byte-for-byte unchanged
from before the call (no message is appended); the usage log is also
unchanged. -/
theorem c2_backend_failure_no_mutation (safeMode : Bool)
    (rateMax : Nat) (window : Int)
    (backend : List Msg → Except String BackendResp)
    (usageWriter : List UsageRecord → UsageRecord → Except String (List UsageRecord))
    (st : AskState) (ip command cid e : String) (modeParam : Option String)
    (now : Int) (nowU nowA : Nat) (timeStr : String)
    (hadm : (isRateLimited rateMax window st.rate ip now).1 = false)
    (hcmd : command ≠ "")
    (hcid : cid ≠ "")
    (hback : backend (buildMessages safeMode st.gen.conversations (some cid) command)
        = Except.error e) :
    (ask true true safeMode rateMax window backend usageWriter
        st ip command (some cid) modeParam now nowU nowA timeStr).1
      = AskResponse.backendError e
    ∧ (ask true true safeMode rateMax window backend usageWriter
        st ip command (some cid) modeParam now nowU nowA timeStr).2.gen.conversations
      = st.gen.conversations
    ∧ (ask true true safeMode rateMax window backend usageWriter
        st ip command (some cid) modeParam now nowU nowA timeStr).2.gen.usage
      = st.gen.usage := by
  refine ⟨?_, ?_, ?_⟩ <;>
    simp [ask, generate, resolveOr, hadm, hcmd, hcid, hback]

/-- Witness for C2 at a concrete input (a backend that always fails). -/
theorem c2_backend_failure_no_mutation_witness :
    ((isRateLimited 20 10 askDemoState.rate "1.2.3.4" 0).1 = false
      ∧ "hi" ≠ ""
      ∧ "c1" ≠ ""
      ∧ (fun _ : List Msg => (Except.error "boom" : Except String BackendResp))
          (buildMessages true askDemoState.gen.conversations (some "c1") "hi")
          = Except.error "boom")
    ∧ ((ask true true true 20 10 (fun _ => Except.error "boom") appendUsageOk
          askDemoState "1.2.3.4" "hi" (some "c1") none 0 5 6 "t").1
        = AskResponse.backendError "boom"
      ∧ (ask true true true 20 10 (fun _ => Except.error "boom") appendUsageOk
          askDemoState "1.2.3.4" "hi" (some "c1") none 0 5 6 "t").2.gen.conversations
        = askDemoState.gen.conversations
      ∧ (ask true true true 20 10 (fun _ => Except.error "boom") appendUsageOk
          askDemoState "1.2.3.4" "hi" (some "c1") none 0 5 6 "t").2.gen.usage
        = askDemoState.gen.usage) :=
  ⟨⟨by decide, by decide, by decide, rfl⟩,
   c2_backend_failure_no_mutation true 20 10 (fun _ => Except.error "boom") appendUsageOk
     askDemoState "1.2.3.4" "hi" "c1" "boom" none 0 5 6 "t"
     (by decide) (by decide) (by decide) rfl⟩

/-- C3 (code behavior at the failing input): the `/ask` route ignores the
mode when building the system prompt.  With a probing backend that
reports the system prompt it receives, `handle` with mode `business`
(and likewise `creative`, `debug`, `default`, or an unrecognized mode)
hands the backend exactly `basePersona ++ safetyClause`, with no
mode-specific suffix; the mode branch merely assigns the never-read
attribute `set_persona`.  This differs from the suffixed prompt that
`src/bot_engine.py`'s `generate` would build. -/
theorem c3_mode_never_reaches_prompt :
    (ask true true true 20 10 probeBackend appendUsageOk
        askDemoState "ip" "hello" (some "c1") (some "business") 0 5 6 "t").1
      = AskResponse.backendError (basePersona ++ safetyClause)
    ∧ (ask true true true 20 10 probeBackend appendUsageOk
        askDemoState "ip" "hello" (some "c1") (some "creative") 0 5 6 "t").1
      = AskResponse.backendError (basePersona ++ safetyClause)
    ∧ (ask true true true 20 10 probeBackend appendUsageOk
        askDemoState "ip" "hello" (some "c1") (some "debug") 0 5 6 "t").1
      = AskResponse.backendError (basePersona ++ safetyClause)
    ∧ (ask true true true 20 10 probeBackend appendUsageOk
        askDemoState "ip" "hello" (some "c1") (some "default") 0 5 6 "t").1
      = AskResponse.backendError (basePersona ++ safetyClause)
    ∧ (ask true true true 20 10 probeBackend appendUsageOk
        askDemoState "ip" "hello" (some "c1") (some "unrecognized") 0 5 6 "t").1
      = AskResponse.backendError (basePersona ++ safetyClause)
    ∧ (ask true true true 20 10 probeBackend appendUsageOk
        askDemoState "ip" "hello" (some "c1") (some "business") 0 5 6 "t").2.engine.setPersona
      = some "You are a professional business assistant; concise, formal."
    ∧ systemPrompt true = basePersona ++ safetyClause
    ∧ systemPrompt true ≠ beastSystemPrompt "business" true := by
  refine ⟨rfl, rfl, rfl, rfl, rfl, rfl, rfl, ?_⟩
  decide

/-- C4 is refuted on the code: a failing usage write after a successful
backend call is caught by `generate`'s catch-all handler, which returns
an error dictionary — the generated answer is not returned. -/
theorem c4_usage_failure_counterexample :
    (generate true true true "gpt-5-mini" 30 okBackendPong failUsageWriter
        (GenState.mk [] []) "hi" (some "c1") 5 6 "t").1.answer = none
    ∧ (generate true true true "gpt-5-mini" 30 okBackendPong failUsageWriter
        (GenState.mk [] []) "hi" (some "c1") 5 6 "t").1.error
      = some "usage write failed" :=
  ⟨rfl, rfl⟩

/-- C4 amended: when the backend succeeds but the usage-recording step
fails, `generate` returns the usage failure as the call's error instead
of the generated answer; the user and assistant messages have already
been appended to the conversation by then. -/
theorem c4_amended_usage_failure_aborts (safeMode : Bool) (model : String)
    (maxHistory : Nat)
    (backend : List Msg → Except String BackendResp)
    (usageWriter : List UsageRecord → UsageRecord → Except String (List UsageRecord))
    (st : GenState) (text cid e : String) (resp : BackendResp)
    (nowU nowA : Nat) (ts : String)
    (hb : backend (buildMessages safeMode st.conversations (some cid) text)
        = Except.ok resp)
    (hu : ∀ log entry, usageWriter log entry = Except.error e) :
    (generate true true safeMode model maxHistory backend usageWriter
        st text (some cid) nowU nowA ts).1.answer = none
    ∧ (generate true true safeMode model maxHistory backend usageWriter
        st text (some cid) nowU nowA ts).1.error = some e
    ∧ (generate true true safeMode model maxHistory backend usageWriter
        st text (some cid) nowU nowA ts).2.conversations
      = appendMessage maxHistory
          (appendMessage maxHistory st.conversations cid "user" text nowU)
          cid "assistant" resp.content nowA := by
  refine ⟨?_, ?_, ?_⟩ <;> simp [generate, hb, hu]

/-- Witness for the amended C4 at a concrete input. -/
theorem c4_amended_usage_failure_aborts_witness :
    (okBackendPong (buildMessages true ([] : Conversations) (some "c1") "hi")
        = Except.ok (BackendResp.mk "pong" none)
      ∧ ∀ log entry, failUsageWriter log entry = Except.error "usage write failed")
    ∧ ((generate true true true "gpt-5-mini" 30 okBackendPong failUsageWriter
          (GenState.mk [] []) "hi" (some "c1") 5 6 "t").1.answer = none
      ∧ (generate true true true "gpt-5-mini" 30 okBackendPong failUsageWriter
          (GenState.mk [] []) "hi" (some "c1") 5 6 "t").1.error = some "usage write failed"
      ∧ (generate true true true "gpt-5-mini" 30 okBackendPong failUsageWriter
          (GenState.mk [] []) "hi" (some "c1") 5 6 "t").2.conversations
        = appendMessage 30 (appendMessage 30 ([] : Conversations) "c1" "user" "hi" 5)
            "c1" "assistant" "pong" 6) :=
  ⟨⟨rfl, fun _ _ => rfl⟩,
   c4_amended_usage_failure_aborts true "gpt-5-mini" 30 okBackendPong failUsageWriter
     (GenState.mk [] []) "hi" "c1" "usage write failed" (BackendResp.mk "pong" none)
     5 6 "t" rfl (fun _ _ => rfl)⟩

/-- C5 is refuted on the code at a full history: with 30 messages already
stored under `"c1"` (the configured `max_history`), a successful `handle`
call leaves the trimmed 30-message tail, not the prior history followed
by the two new messages. -/
theorem c5_full_history_counterexample :
    getConversation (ask true true true 20 10 okBackendPong appendUsageOk
        fullConvoState "ip" "hi" (some "c1") none 0 5 6 "t").2.gen.conversations "c1"
      ≠ List.replicate 30 (Message.mk "user" "x" 0)
        ++ [Message.mk "user" "hi" 5, Message.mk "assistant" "pong" 6] := by
  decide

/-- C5 amended: when `handle` is called with a conversation key,
non-empty `userText` and a succeeding backend, the history afterwards is
the most recent `max_history` entries of the prior history followed by
the user message and then the assistant reply (equal to the plain
concatenation whenever the prior history holds at most `max_history - 2`
messages), and exactly one generation `UsageEntry` is appended, whose
conversation key equals the given key and whose prompt length equals the
sum of content lengths across the assembled message sequence. -/
theorem c5_amended_success_updates (safeMode : Bool) (rateMax : Nat) (window : Int)
    (backend : List Msg → Except String BackendResp)
    (st : AskState) (ip command cid : String) (modeParam : Option String)
    (resp : BackendResp) (now : Int) (nowU nowA : Nat) (ts : String)
    (hmh : 1 ≤ st.engine.maxHistory)
    (hadm : (isRateLimited rateMax window st.rate ip now).1 = false)
    (hcmd : command ≠ "") (hcid : cid ≠ "")
    (hb : backend (buildMessages safeMode st.gen.conversations (some cid) command)
        = Except.ok resp) :
    getConversation (ask true true safeMode rateMax window backend appendUsageOk
        st ip command (some cid) modeParam now nowU nowA ts).2.gen.conversations cid
      = lastN st.engine.maxHistory
          (getConversation st.gen.conversations cid
            ++ [Message.mk "user" command nowU, Message.mk "assistant" resp.content nowA])
    ∧ (ask true true safeMode rateMax window backend appendUsageOk
        st ip command (some cid) modeParam now nowU nowA ts).2.gen.usage
        = st.gen.usage
          ++ [UsageRecord.gen ts cid st.engine.model
                ((buildMessages safeMode st.gen.conversations (some cid) command).map
                    (fun m => m.content.length)).sum
                (resp.usage.getD "")]
    ∧ (ask true true safeMode rateMax window backend appendUsageOk
        st ip command (some cid) modeParam now nowU nowA ts).1
        = AskResponse.ok resp.content resp.usage := by
  refine ⟨?_, ?_, ?_⟩ <;>
  · simp only [ask, resolveOr, hadm, hcmd, hcid, Bool.false_eq_true, if_false]
    split_ifs <;>
      simp [generate, hb, appendUsageOk, getConversation_two_appends hmh]

/-- Witness for the amended C5 at a concrete input. -/
theorem c5_amended_success_updates_witness :
    (1 ≤ askDemoState.engine.maxHistory
      ∧ (isRateLimited 20 10 askDemoState.rate "ip" 0).1 = false
      ∧ "hi" ≠ "" ∧ "c1" ≠ ""
      ∧ okBackendPong (buildMessages true askDemoState.gen.conversations (some "c1") "hi")
          = Except.ok (BackendResp.mk "pong" none))
    ∧ (getConversation (ask true true true 20 10 okBackendPong appendUsageOk
          askDemoState "ip" "hi" (some "c1") none 0 5 6 "t").2.gen.conversations "c1"
        = lastN askDemoState.engine.maxHistory
            (getConversation askDemoState.gen.conversations "c1"
              ++ [Message.mk "user" "hi" 5, Message.mk "assistant" "pong" 6])
      ∧ (ask true true true 20 10 okBackendPong appendUsageOk
          askDemoState "ip" "hi" (some "c1") none 0 5 6 "t").2.gen.usage
        = askDemoState.gen.usage
          ++ [UsageRecord.gen "t" "c1" askDemoState.engine.model
                ((buildMessages true askDemoState.gen.conversations (some "c1") "hi").map
                    (fun m => m.content.length)).sum
                ((none : Option String).getD "")]
      ∧ (ask true true true 20 10 okBackendPong appendUsageOk
          askDemoState "ip" "hi" (some "c1") none 0 5 6 "t").1
        = AskResponse.ok "pong" none) :=
  ⟨⟨by decide, by decide, by decide, by decide, rfl⟩,
   c5_amended_success_updates true 20 10 okBackendPong askDemoState "ip" "hi" "c1" none
     (BackendResp.mk "pong" none) 0 5 6 "t"
     (by decide) (by decide) (by decide) (by decide) rfl⟩

end NeuraAI
